import Mathlib

/-!
Shallow embedding of `src/replibyte/src/main.rs`, the entry point of the
replibyte dump/restore tool.

The entry point is pure wiring: it builds a datastore backend from the
configuration, constructs a `Migrator` and runs `migrate()`, calls
`datastore.init()`, creates a bounded progress channel, decides whether to
spawn the progress-display thread, and finally dispatches to one subcommand
handler.  External collaborators (configuration accessors, the S3 client
constructors, `Migrator::migrate`, `Datastore::init`, the subcommand
handlers) are modelled as `Except` results supplied through an environment
record, and `run` is modelled as a function returning the ordered trace of
the effects it performs together with its result, so that ordering and
error-propagation claims can be stated about the trace.

The progress channel (`std::sync::mpsc::sync_channel`) and the
`show_progress_bar` loop are modelled separately: the channel as an explicit
queue with the documented semantics of `SyncSender::send`, and the loop as a
step function over the local variables `_max_bytes` /
`last_transferred_bytes` driven by a sequence of `try_recv` outcomes.
-/

namespace Replibyte

/-- Errors (`anyhow::Error`) modelled as string messages. -/
abbrev Err := String

/-- `TransferredBytes` from `crate::tasks`. -/
abbrev TransferredBytes := Nat

/-- `MaxBytes` from `crate::tasks`. -/
abbrev MaxBytes := Nat

/-- The AWS variant of the datastore configuration: each backend-parameter
accessor used by `run` may fail. -/
structure AWSConfig where
  bucket : Except Err String
  region : Except Err String
  profile : Except Err String
  credentials : Except Err String
  endpoint : Except Err String

/-- The GCP variant of the datastore configuration. -/
structure GCPConfig where
  bucket : Except Err String
  region : Except Err String
  access_key : Except Err String
  secret : Except Err String
  endpoint : Except Err String

/-- The local-disk variant of the datastore configuration. -/
structure LocalDiskConfig where
  dir : Except Err String

/-- `config::DatastoreConfig`: backend selection. -/
inductive DatastoreConfig
  | AWS (config : AWSConfig)
  | GCP (config : GCPConfig)
  | LocalDisk (config : LocalDiskConfig)

/-- `config::Config`: only the `datastore` field is read by `run` itself. -/
structure Config where
  datastore : DatastoreConfig

/-- The datastore implementation constructed by `run`:
`S3::aws(..)`, `S3::gcp(..)` or `LocalDisk::new(..)`. -/
inductive Backend
  | S3aws (bucket region profile credentials endpoint : String)
  | S3gcp (bucket region access_key secret endpoint : String)
  | LocalDisk (dir : String)
  deriving DecidableEq

/-- `cli::RestoreCommand`: only the `output` flag is read by `run`. -/
inductive RestoreCommand
  | Local (output : Bool)
  | Remote (output : Bool)
  deriving DecidableEq

/-- `cli::DumpCommand`: only `args.name` of `Create` is read by `run`. -/
inductive DumpCommand
  | List
  | Create (name : Option String)
  | Delete
  | Restore (cmd : RestoreCommand)
  deriving DecidableEq

/-- `cli::TransformerCommand`. -/
inductive TransformerCommand
  | List
  deriving DecidableEq

/-- `cli::SubCommand`. -/
inductive SubCommand
  | Dump (cmd : DumpCommand)
  | Transformer (cmd : TransformerCommand)
  deriving DecidableEq

/-- The handler function `run` dispatches to in its final `match`. -/
inductive Handler
  | dumpList
  | dumpRun
  | dumpDelete
  | restoreLocal
  | restoreRemote
  | transformerList
  deriving DecidableEq

/-- Observable effects of `run`, in program order. -/
inductive Event
  | constructDatastore (b : Backend)
  | migratorNew
  | migratorMigrate
  | datastoreInit
  | spawnProgressThread
  | setDumpName (name : String)
  | runHandler (h : Handler)
  deriving DecidableEq

/-- Results of the external calls `run` makes: the fallible `S3::aws` /
`S3::gcp` constructors, `Migrator::migrate`, `Datastore::init`, and the
subcommand handlers. -/
structure Env where
  s3awsNew : Except Err Unit
  s3gcpNew : Except Err Unit
  migrateResult : Except Err Unit
  initResult : Except Err Unit
  handlerResult : Handler → Except Err Unit

/-- The `?` operator on a `Result`: return the error, or continue with the
value. -/
def qTry {α β : Type} (x : Except Err α) (k : α → Except Err β) : Except Err β :=
  match x with
  | .error e => .error e
  | .ok a => k a

/-- The first `match` of `run`: build the datastore backend from the
configuration, propagating the first accessor (or constructor) error with
the `?` operator. -/
def buildDatastore (env : Env) (cfg : DatastoreConfig) : Except Err Backend :=
  match cfg with
  | .AWS config =>
    qTry config.bucket fun bucket =>
    qTry config.region fun region =>
    qTry config.profile fun profile =>
    qTry config.credentials fun credentials =>
    qTry config.endpoint fun endpoint =>
    qTry env.s3awsNew fun _ =>
    .ok (.S3aws bucket region profile credentials endpoint)
  | .GCP config =>
    qTry config.bucket fun bucket =>
    qTry config.region fun region =>
    qTry config.access_key fun access_key =>
    qTry config.secret fun secret =>
    qTry config.endpoint fun endpoint =>
    qTry env.s3gcpNew fun _ =>
    .ok (.S3gcp bucket region access_key secret endpoint)
  | .LocalDisk config =>
    qTry config.dir fun dir =>
    .ok (.LocalDisk dir)

/-- The progress-thread `match` of `run`.  In the source, both restore arms
read `if args.output ` followed by an empty block, so no thread is spawned
for a restore subcommand in either branch of the flag; every other
subcommand spawns `show_progress_bar`. -/
def spawnEvents : SubCommand → List Event
  | .Dump (.Restore (.Local _output)) => []
  | .Dump (.Restore (.Remote _output)) => []
  | .Dump _ => [.spawnProgressThread]
  | .Transformer _ => [.spawnProgressThread]

/-- Which handler the final `match` of `run` dispatches to. -/
def handlerFor : SubCommand → Handler
  | .Dump .List => .dumpList
  | .Dump (.Create _) => .dumpRun
  | .Dump .Delete => .dumpDelete
  | .Dump (.Restore (.Local _)) => .restoreLocal
  | .Dump (.Restore (.Remote _)) => .restoreRemote
  | .Transformer .List => .transformerList

/-- In the `Create` arm, `datastore.set_dump_name(name)` is called when
`args.name` is present, before the handler runs. -/
def setDumpNameEvents : SubCommand → List Event
  | .Dump (.Create (some name)) => [.setDumpName name]
  | _ => []

/-- The result `run` returns from its final `match`: handler results are
propagated, except `commands::transformer::list()`, whose result is
discarded with `let _ =` and replaced by `Ok(())`. -/
def handlerResultOf (env : Env) (sub : SubCommand) : Except Err Unit :=
  match sub with
  | .Transformer .List => .ok ()
  | _ => env.handlerResult (handlerFor sub)

/-- `run`, as the ordered trace of its effects paired with its result.
Mirrors the source: datastore construction, `Migrator::new`,
`migrator.migrate()?`, `datastore.init()?`, the progress-thread `match`,
then the subcommand dispatch. -/
def run (env : Env) (config : Config) (sub_commands : SubCommand) :
    List Event × Except Err Unit :=
  match buildDatastore env config.datastore with
  | .error e => ([], .error e)
  | .ok datastore =>
    let trace := [Event.constructDatastore datastore, Event.migratorNew,
      Event.migratorMigrate]
    match env.migrateResult with
    | .error e => (trace, .error e)
    | .ok _ =>
      match env.initResult with
      | .error e => (trace ++ [Event.datastoreInit], .error e)
      | .ok _ =>
        (trace ++ [Event.datastoreInit] ++ spawnEvents sub_commands
          ++ setDumpNameEvents sub_commands
          ++ [Event.runHandler (handlerFor sub_commands)],
         handlerResultOf env sub_commands)

/-- The events of a trace strictly before the first occurrence of `e`. -/
def eventsBefore (e : Event) (trace : List Event) : List Event :=
  trace.takeWhile (fun x => x ≠ e)

/-- One of the backend-parameter accessors of the configured variant
returns `Except.error e`. -/
def isAccessorError (cfg : DatastoreConfig) (e : Err) : Prop :=
  match cfg with
  | .AWS c => c.bucket = .error e ∨ c.region = .error e ∨ c.profile = .error e ∨
      c.credentials = .error e ∨ c.endpoint = .error e
  | .GCP c => c.bucket = .error e ∨ c.region = .error e ∨ c.access_key = .error e ∨
      c.secret = .error e ∨ c.endpoint = .error e
  | .LocalDisk c => c.dir = .error e

/-- The backends a trace records as constructed. -/
def constructedBackends (trace : List Event) : List Backend :=
  trace.filterMap (fun e =>
    match e with
    | .constructDatastore b => some b
    | _ => none)

/-- The constructed backend implementation matches the configured variant:
`S3` for both cloud variants, `LocalDisk` for the local variant. -/
def backendMatches (cfg : DatastoreConfig) (b : Backend) : Bool :=
  match cfg, b with
  | .AWS _, .S3aws _ _ _ _ _ => true
  | .GCP _, .S3gcp _ _ _ _ _ => true
  | .LocalDisk _, .LocalDisk _ => true
  | _, _ => false

/-- Outcome of `main`: either a normal return with the lines written to the
standard error stream, or a crash by `expect` while loading the
configuration. -/
inductive MainOutcome
  | normalExit (stderr : List Err)
  | crashed (msg : String)
  deriving DecidableEq

/-- `main`: load the configuration (its two `expect` calls crash on
failure), run `run`, and on `Err(err)` print the error with `eprintln!`. -/
def main (fileOpen : Except Err Unit) (parsed : Except Err Config) (env : Env)
    (sub_commands : SubCommand) : MainOutcome :=
  match fileOpen with
  | .error _ => .crashed "missing config file"
  | .ok _ =>
    match parsed with
    | .error _ => .crashed "bad config file format"
    | .ok config =>
      match (run env config sub_commands).2 with
      | .error err => .normalExit [err]
      | .ok _ => .normalExit []

/-- State of the bounded progress channel created by
`mpsc::sync_channel::<(TransferredBytes, MaxBytes)>(1000)`. -/
structure SyncChannel where
  cap : Nat
  queue : List (TransferredBytes × MaxBytes)
  receiverAlive : Bool
  deriving DecidableEq

/-- Outcome of one call to `SyncSender::send`. -/
inductive SendOutcome
  | delivered (ch : SyncChannel)
  | blocked
  | disconnected
  deriving DecidableEq

/-- Semantics of `std::sync::mpsc::SyncSender::send` on a bounded channel:
if the receiver has been dropped the call returns `Err` immediately;
if the buffer has free space the message is enqueued and the call returns
`Ok`; if the buffer is full the call blocks until space becomes available
(`blocked` marks that the call does not return immediately). -/
def syncSend (ch : SyncChannel) (msg : TransferredBytes × MaxBytes) : SendOutcome :=
  if ch.receiverAlive = false then .disconnected
  else if ch.queue.length < ch.cap then
    .delivered { ch with queue := ch.queue ++ [msg] }
  else .blocked

/-- `progress_callback`: sends `(bytes, max_bytes)` on the channel and
discards the send result with `let _ =`.  `some (ch, r)` means the call
returned immediately with channel state `ch` and result `r`; `none` means
the underlying `send` blocked. -/
def progress_callback (ch : SyncChannel) (bytes : TransferredBytes)
    (max_bytes : MaxBytes) : Option (SyncChannel × Except Err Unit) :=
  match syncSend ch (bytes, max_bytes) with
  | .delivered ch' => some (ch', .ok ())
  | .blocked => none
  | .disconnected => some (ch, .ok ())

/-- Outcome of `Receiver::try_recv` in one iteration of `show_progress_bar`:
a message, or `Err(TryRecvError::Empty)`, or
`Err(TryRecvError::Disconnected)`.  The source matches `Err(_)`, covering
the last two identically. -/
inductive TryRecvResult
  | ok (msg : TransferredBytes × MaxBytes)
  | errEmpty
  | errDisconnected
  deriving DecidableEq

/-- The local variables of `show_progress_bar`: `_max_bytes` and
`last_transferred_bytes`, both initialised to `0usize`. -/
structure PBState where
  maxBytes : MaxBytes
  lastTransferredBytes : TransferredBytes
  deriving DecidableEq

/-- One iteration of the `loop` in `show_progress_bar`: the reported
`(transferred_bytes, max_bytes)` pair and the state of the local variables
for the next iteration (`some` because the body has no `break` or `return`;
note the source never assigns to either local after initialisation). -/
def showProgressBarBody (st : PBState) (r : TryRecvResult) :
    (TransferredBytes × MaxBytes) × Option PBState :=
  match r with
  | .ok msg => (msg, some st)
  | .errEmpty => ((st.lastTransferredBytes, st.maxBytes), some st)
  | .errDisconnected => ((st.lastTransferredBytes, st.maxBytes), some st)

/-- The reported pairs of `show_progress_bar` over a finite prefix of
`try_recv` outcomes, threading the local-variable state. -/
def showProgressBarGo (st : PBState) : List TryRecvResult →
    List (TransferredBytes × MaxBytes)
  | [] => []
  | p :: rest =>
    let step := showProgressBarBody st p
    step.1 :: showProgressBarGo (step.2.getD st) rest

/-- The reported pairs of `show_progress_bar` from its initial state. -/
def showProgressBarReports (polls : List TryRecvResult) :
    List (TransferredBytes × MaxBytes) :=
  showProgressBarGo ⟨0, 0⟩ polls

/-- The local-variable state of `show_progress_bar` when iteration `n`
begins, given the infinite sequence of `try_recv` outcomes; `none` would
mean the loop exited before iteration `n`. -/
def showProgressBarIter (polls : Nat → TryRecvResult) : Nat → Option PBState
  | 0 => some ⟨0, 0⟩
  | n + 1 =>
    match showProgressBarIter polls n with
    | none => none
    | some st => (showProgressBarBody st (polls n)).2

/-- An environment in which every external call succeeds. -/
def okEnv : Env where
  s3awsNew := .ok ()
  s3gcpNew := .ok ()
  migrateResult := .ok ()
  initResult := .ok ()
  handlerResult := fun _ => .ok ()

/-- `okEnv` with a failing `Migrator::migrate`. -/
def migrateFailEnv : Env :=
  { okEnv with migrateResult := .error "store newer than tool" }

/-- A local-disk configuration whose accessor succeeds. -/
def cfgLocal : Config where
  datastore := .LocalDisk { dir := .ok "store-dir" }

/-- An AWS configuration whose `region` accessor fails. -/
def cfgBadAws : Config where
  datastore := .AWS
    { bucket := .ok "b"
      region := .error "missing region"
      profile := .ok "p"
      credentials := .ok "c"
      endpoint := .ok "e" }

/-- A full progress channel of the capacity used by `run`, with the
receiver still alive. -/
def fullChannel : SyncChannel where
  cap := 1000
  queue := List.replicate 1000 (0, 0)
  receiverAlive := true

/-- A progress channel whose receiver has been dropped. -/
def deadChannel : SyncChannel where
  cap := 1000
  queue := []
  receiverAlive := false

/-! Helper lemmas. -/

theorem qTry_ok {α β : Type} (a : α) (k : α → Except Err β) :
    qTry (.ok a) k = k a := rfl

theorem qTry_error {α β : Type} (e : Err) (k : α → Except Err β) :
    qTry (.error e) k = .error e := rfl

theorem mem_eventsBefore_of_forall_ne (a b : Event) (l1 l2 : List Event)
    (h1 : a ∈ l1) (h2 : ∀ x ∈ l1, x ≠ b) :
    a ∈ eventsBefore b (l1 ++ l2) := by
  induction l1 with
  | nil => cases h1
  | cons x xs ih =>
    have hx : x ≠ b := h2 x (List.mem_cons_self x xs)
    have hstep : eventsBefore b ((x :: xs) ++ l2) = x :: eventsBefore b (xs ++ l2) := by
      simp [eventsBefore, hx]
    rw [hstep]
    rcases List.mem_cons.mp h1 with h | h
    · exact h ▸ List.mem_cons_self _ _
    · exact List.mem_cons_of_mem _ (ih h fun y hy => h2 y (List.mem_cons_of_mem _ hy))

theorem run_trace_shape (env : Env) (config : Config) (sub : SubCommand) :
    (run env config sub).1 = [] ∨
    ∃ b rest, (run env config sub).1 =
      [Event.constructDatastore b, Event.migratorNew, Event.migratorMigrate] ++ rest := by
  cases hb : buildDatastore env config.datastore with
  | error e => left; simp [run, hb]
  | ok b =>
    cases hm : env.migrateResult with
    | error e => right; exact ⟨b, [], by simp [run, hb, hm]⟩
    | ok _ =>
      cases hi : env.initResult with
      | error e => right; exact ⟨b, [Event.datastoreInit], by simp [run, hb, hm, hi]⟩
      | ok _ =>
        right
        refine ⟨b, [Event.datastoreInit] ++ spawnEvents sub ++ setDumpNameEvents sub
          ++ [Event.runHandler (handlerFor sub)], ?_⟩
        simp [run, hb, hm, hi]

theorem migrate_in_eventsBefore (env : Env) (config : Config) (sub : SubCommand)
    (t : Event)
    (ht1 : ∀ b, t ≠ Event.constructDatastore b)
    (ht2 : t ≠ Event.migratorNew) (ht3 : t ≠ Event.migratorMigrate)
    (hmem : t ∈ (run env config sub).1) :
    Event.migratorMigrate ∈ eventsBefore t (run env config sub).1 := by
  rcases run_trace_shape env config sub with h | ⟨b, rest, h⟩
  · rw [h] at hmem; cases hmem
  · rw [h]
    apply mem_eventsBefore_of_forall_ne
    · simp
    · intro x hx
      rcases List.mem_cons.mp hx with rfl | hx
      · exact fun hh => ht1 b hh.symm
      rcases List.mem_cons.mp hx with rfl | hx
      · exact fun hh => ht2 hh.symm
      rcases List.mem_cons.mp hx with rfl | hx
      · exact fun hh => ht3 hh.symm
      · cases hx

/-! Theorems for the claims. -/

/-- Claim C1: for every configuration and subcommand, `migrator.migrate()`
is invoked before `datastore.init()` and before any other datastore
operation of the subcommand handlers (the handler dispatch itself and
`set_dump_name`): in the trace of `run`, the migrate event precedes the
first occurrence of each of those events whenever they occur. -/
theorem C1_migrate_before_other_datastore_ops (env : Env) (config : Config)
    (sub : SubCommand) :
    (Event.datastoreInit ∈ (run env config sub).1 →
      Event.migratorMigrate ∈ eventsBefore Event.datastoreInit (run env config sub).1) ∧
    (∀ h, Event.runHandler h ∈ (run env config sub).1 →
      Event.migratorMigrate ∈ eventsBefore (Event.runHandler h) (run env config sub).1) ∧
    (∀ n, Event.setDumpName n ∈ (run env config sub).1 →
      Event.migratorMigrate ∈ eventsBefore (Event.setDumpName n) (run env config sub).1) := by
  refine ⟨fun hm => ?_, fun h hm => ?_, fun n hm => ?_⟩
  · exact migrate_in_eventsBefore env config sub _ (by intro b hh; cases hh)
      (by intro hh; cases hh) (by intro hh; cases hh) hm
  · exact migrate_in_eventsBefore env config sub _ (by intro b hh; cases hh)
      (by intro hh; cases hh) (by intro hh; cases hh) hm
  · exact migrate_in_eventsBefore env config sub _ (by intro b hh; cases hh)
      (by intro hh; cases hh) (by intro hh; cases hh) hm

/-- Witness for C1 at a concrete run: `dump list` on a local-disk store. -/
theorem C1_witness :
    Event.datastoreInit ∈ (run okEnv cfgLocal (SubCommand.Dump DumpCommand.List)).1 ∧
    Event.migratorMigrate ∈ eventsBefore Event.datastoreInit
      (run okEnv cfgLocal (SubCommand.Dump DumpCommand.List)).1 :=
  ⟨by decide,
   (C1_migrate_before_other_datastore_ops okEnv cfgLocal
     (SubCommand.Dump DumpCommand.List)).1 (by decide)⟩

/-- Claim C2: when `migrator.migrate()` returns an error, `run` returns that
error immediately: `datastore.init()` is not called and no handler runs. -/
theorem C2_migrate_error_aborts (env : Env) (config : Config) (sub : SubCommand)
    (b : Backend) (e : Err)
    (hb : buildDatastore env config.datastore = .ok b)
    (hm : env.migrateResult = .error e) :
    (run env config sub).2 = .error e ∧
    Event.datastoreInit ∉ (run env config sub).1 ∧
    (∀ h, Event.runHandler h ∉ (run env config sub).1) := by
  refine ⟨by simp [run, hb, hm], by simp [run, hb, hm], fun h => by simp [run, hb, hm]⟩

/-- Witness for C2: migrate fails on a local-disk store under `dump list`. -/
theorem C2_witness :
    buildDatastore migrateFailEnv cfgLocal.datastore = .ok (Backend.LocalDisk "store-dir") ∧
    migrateFailEnv.migrateResult = .error "store newer than tool" ∧
    (run migrateFailEnv cfgLocal (SubCommand.Dump DumpCommand.List)).2 =
      .error "store newer than tool" :=
  ⟨rfl, rfl,
   (C2_migrate_error_aborts migrateFailEnv cfgLocal (SubCommand.Dump DumpCommand.List)
     (Backend.LocalDisk "store-dir") "store newer than tool" rfl rfl).1⟩

/-- Claim C4 evaluation at the failing input: after the message `(5, 10)` is
received, an iteration whose `try_recv` yields nothing reports `(0, 0)`,
not the most recently received pair: `last_transferred_bytes` and
`_max_bytes` are never assigned after initialisation. -/
theorem C4_stale_report_is_zero :
    showProgressBarReports [TryRecvResult.ok (5, 10), TryRecvResult.errEmpty] =
      [(5, 10), (0, 0)] := rfl

/-- Claim C5 evaluation at the failing input: for `dump restore local` with
`--output` false, `run` spawns no progress-display thread, although the
source comment says progress is skipped only when `output = true`. -/
theorem C5_restore_local_no_spawn :
    Event.spawnProgressThread ∉
      (run okEnv cfgLocal (SubCommand.Dump (DumpCommand.Restore
        (RestoreCommand.Local false)))).1 := by decide

/-- Claim C9: the `show_progress_bar` loop never terminates: its body always
continues with the same local state (also on a disconnected channel), so
for every sequence of `try_recv` outcomes every iteration is reached. -/
theorem C9_progress_loop_never_exits :
    (∀ st r, (showProgressBarBody st r).2 = some st) ∧
    (∀ polls n, (showProgressBarIter polls n).isSome = true) := by
  constructor
  · intro st r; cases r <;> rfl
  · intro polls n
    induction n with
    | zero => rfl
    | succ n ih =>
      rcases Option.isSome_iff_exists.mp ih with ⟨st, hst⟩
      simp only [showProgressBarIter, hst]
      cases polls n <;> simp [showProgressBarBody]

/-- Claim C3 counterexample: when the bounded queue of capacity 1000 already
holds 1000 undelivered events and the receiver is alive, the producer's
send blocks — the call does not return. -/
theorem C3_counterexample_full_queue_blocks :
    progress_callback fullChannel 1 2 = none := by
  have h1 : ¬ (fullChannel.receiverAlive = false) := fun h => Bool.noConfusion h
  have hq : fullChannel.queue = List.replicate 1000 (0, 0) := rfl
  have hlen : fullChannel.queue.length = 1000 := by
    rw [hq, List.length_replicate]
  have h2 : ¬ (fullChannel.queue.length < fullChannel.cap) := by
    rw [hlen]
    exact Nat.lt_irrefl 1000
  have hs : syncSend fullChannel (1, 2) = SendOutcome.blocked := by
    unfold syncSend
    rw [if_neg h1, if_neg h2]
  unfold progress_callback
  rw [hs]

/-- Claim C3 (amended): a `progress_callback` call returns without blocking
whenever the queue holds fewer events than its capacity or the receiver has
been dropped; only a full queue with a live receiver blocks. -/
theorem C3_nonblocking_unless_full (ch : SyncChannel) (bytes max_bytes : Nat)
    (h : ch.queue.length < ch.cap ∨ ch.receiverAlive = false) :
    (progress_callback ch bytes max_bytes).isSome = true := by
  rcases h with h | h
  · by_cases ha : ch.receiverAlive = false
    · simp [progress_callback, syncSend, ha]
    · simp [progress_callback, syncSend, ha, h]
  · simp [progress_callback, syncSend, h]

/-- Witness for the amended C3: an empty queue does not block. -/
theorem C3_witness :
    ((SyncChannel.mk 1000 [] true).queue.length < (SyncChannel.mk 1000 [] true).cap ∨
      (SyncChannel.mk 1000 [] true).receiverAlive = false) ∧
    (progress_callback (SyncChannel.mk 1000 [] true) 1 2).isSome = true :=
  ⟨Or.inl (by decide),
   C3_nonblocking_unless_full (SyncChannel.mk 1000 [] true) 1 2 (Or.inl (by decide))⟩

/-- Claim C10: `progress_callback` discards the send result with `let _ =`:
on a dropped receiver it returns immediately with `Ok`, and whenever it
returns at all, its result is `Ok` — a disconnected receiver never turns
into an error of the dump or restore operation. -/
theorem C10_send_result_discarded (ch : SyncChannel) (bytes max_bytes : Nat) :
    (ch.receiverAlive = false →
      progress_callback ch bytes max_bytes = some (ch, Except.ok ())) ∧
    (∀ r, progress_callback ch bytes max_bytes = some r → r.2 = Except.ok ()) := by
  constructor
  · intro h; simp [progress_callback, syncSend, h]
  · intro r hr
    cases hout : syncSend ch (bytes, max_bytes) with
    | delivered ch' =>
      unfold progress_callback at hr
      rw [hout] at hr
      cases hr; rfl
    | blocked =>
      unfold progress_callback at hr
      rw [hout] at hr
      cases hr
    | disconnected =>
      unfold progress_callback at hr
      rw [hout] at hr
      cases hr; rfl

/-- Witness for C10: a dropped receiver yields `Ok`, not an error. -/
theorem C10_witness :
    deadChannel.receiverAlive = false ∧
    progress_callback deadChannel 3 4 = some (deadChannel, Except.ok ()) :=
  ⟨rfl, (C10_send_result_discarded deadChannel 3 4).1 rfl⟩

/-- Claim C8: whenever `run` returns an error, `main` prints exactly that
error to the standard error stream and returns normally — no crash. -/
theorem C8_run_error_printed_no_crash (fileOpen : Except Err Unit)
    (parsed : Except Err Config) (env : Env) (sub : SubCommand)
    (config : Config) (e : Err)
    (hf : fileOpen = .ok ()) (hp : parsed = .ok config)
    (hr : (run env config sub).2 = .error e) :
    main fileOpen parsed env sub = .normalExit [e] := by
  subst hf; subst hp
  simp [main, hr]

/-- Witness for C8: a failing migration is printed to stderr. -/
theorem C8_witness :
    (Except.ok () : Except Err Unit) = .ok () ∧
    (Except.ok cfgLocal : Except Err Config) = .ok cfgLocal ∧
    (run migrateFailEnv cfgLocal (SubCommand.Transformer TransformerCommand.List)).2 =
      .error "store newer than tool" ∧
    main (.ok ()) (.ok cfgLocal) migrateFailEnv
      (SubCommand.Transformer TransformerCommand.List) =
      .normalExit ["store newer than tool"] :=
  ⟨rfl, rfl, rfl,
   C8_run_error_printed_no_crash (.ok ()) (.ok cfgLocal) migrateFailEnv
     (SubCommand.Transformer TransformerCommand.List) cfgLocal
     "store newer than tool" rfl rfl rfl⟩

theorem buildDatastore_error_of_accessorError (env : Env) (cfg : DatastoreConfig)
    (h : ∃ e, isAccessorError cfg e) :
    ∃ e, isAccessorError cfg e ∧ buildDatastore env cfg = .error e := by
  obtain ⟨e, he⟩ := h
  cases cfg with
  | AWS c =>
    rcases hb : c.bucket with eb | vb
    · exact ⟨eb, Or.inl hb, by simp [buildDatastore, hb, qTry_error]⟩
    rcases hr : c.region with er | vr
    · exact ⟨er, Or.inr (Or.inl hr),
        by simp [buildDatastore, hb, hr, qTry_ok, qTry_error]⟩
    rcases hp : c.profile with ep | vp
    · exact ⟨ep, Or.inr (Or.inr (Or.inl hp)),
        by simp [buildDatastore, hb, hr, hp, qTry_ok, qTry_error]⟩
    rcases hc : c.credentials with ec | vc
    · exact ⟨ec, Or.inr (Or.inr (Or.inr (Or.inl hc))),
        by simp [buildDatastore, hb, hr, hp, hc, qTry_ok, qTry_error]⟩
    rcases hn : c.endpoint with en | vn
    · exact ⟨en, Or.inr (Or.inr (Or.inr (Or.inr hn))),
        by simp [buildDatastore, hb, hr, hp, hc, hn, qTry_ok, qTry_error]⟩
    exfalso
    rcases he with h1 | h1 | h1 | h1 | h1
    · rw [hb] at h1; cases h1
    · rw [hr] at h1; cases h1
    · rw [hp] at h1; cases h1
    · rw [hc] at h1; cases h1
    · rw [hn] at h1; cases h1
  | GCP c =>
    rcases hb : c.bucket with eb | vb
    · exact ⟨eb, Or.inl hb, by simp [buildDatastore, hb, qTry_error]⟩
    rcases hr : c.region with er | vr
    · exact ⟨er, Or.inr (Or.inl hr),
        by simp [buildDatastore, hb, hr, qTry_ok, qTry_error]⟩
    rcases ha : c.access_key with ea | va
    · exact ⟨ea, Or.inr (Or.inr (Or.inl ha)),
        by simp [buildDatastore, hb, hr, ha, qTry_ok, qTry_error]⟩
    rcases hs : c.secret with es | vs
    · exact ⟨es, Or.inr (Or.inr (Or.inr (Or.inl hs))),
        by simp [buildDatastore, hb, hr, ha, hs, qTry_ok, qTry_error]⟩
    rcases hn : c.endpoint with en | vn
    · exact ⟨en, Or.inr (Or.inr (Or.inr (Or.inr hn))),
        by simp [buildDatastore, hb, hr, ha, hs, hn, qTry_ok, qTry_error]⟩
    exfalso
    rcases he with h1 | h1 | h1 | h1 | h1
    · rw [hb] at h1; cases h1
    · rw [hr] at h1; cases h1
    · rw [ha] at h1; cases h1
    · rw [hs] at h1; cases h1
    · rw [hn] at h1; cases h1
  | LocalDisk c =>
    rcases hd : c.dir with ed | vd
    · exact ⟨ed, hd, by simp [buildDatastore, hd, qTry_error]⟩
    · exfalso
      have he' : c.dir = Except.error e := he
      rw [hd] at he'
      cases he'

/-- Claim C6: when a backend-parameter accessor of the configured variant
fails, `run` returns an accessor error with an empty effect trace: the
Migrator is never constructed, no datastore operation happens, and no
handler (hence no row streaming) begins. -/
theorem C6_accessor_error_aborts_early (env : Env) (config : Config)
    (sub : SubCommand) (h : ∃ e, isAccessorError config.datastore e) :
    ∃ e, isAccessorError config.datastore e ∧
      run env config sub = ([], Except.error e) := by
  obtain ⟨e, he, hb⟩ := buildDatastore_error_of_accessorError env config.datastore h
  exact ⟨e, he, by simp [run, hb]⟩

/-- Witness for C6: a missing AWS region aborts `dump list` with an empty
trace. -/
theorem C6_witness :
    (∃ e, isAccessorError cfgBadAws.datastore e) ∧
    (∃ e, isAccessorError cfgBadAws.datastore e ∧
      run okEnv cfgBadAws (SubCommand.Dump DumpCommand.List) = ([], Except.error e)) :=
  ⟨⟨"missing region", Or.inr (Or.inl rfl)⟩,
   C6_accessor_error_aborts_early okEnv cfgBadAws (SubCommand.Dump DumpCommand.List)
     ⟨"missing region", Or.inr (Or.inl rfl)⟩⟩

theorem constructedBackends_append (l1 l2 : List Event) :
    constructedBackends (l1 ++ l2) = constructedBackends l1 ++ constructedBackends l2 := by
  simp [constructedBackends, List.filterMap_append]

theorem constructedBackends_spawnEvents (sub : SubCommand) :
    constructedBackends (spawnEvents sub) = [] := by
  rcases sub with c | c
  · rcases c with _ | n | _ | r
    · rfl
    · rfl
    · rfl
    · rcases r with o | o <;> rfl
  · cases c; rfl

theorem constructedBackends_setDumpNameEvents (sub : SubCommand) :
    constructedBackends (setDumpNameEvents sub) = [] := by
  rcases sub with c | c
  · rcases c with _ | n | _ | r
    · rfl
    · rcases n with _ | name <;> rfl
    · rfl
    · rcases r with o | o <;> rfl
  · cases c; rfl

theorem backendMatches_of_buildDatastore_ok (env : Env) (cfg : DatastoreConfig)
    (b : Backend) (h : buildDatastore env cfg = .ok b) :
    backendMatches cfg b = true := by
  cases cfg with
  | AWS c =>
    rcases hb : c.bucket with eb | vb <;> rw [buildDatastore, hb] at h
    · cases h
    rcases hr : c.region with er | vr <;> rw [qTry_ok, hr] at h
    · cases h
    rcases hp : c.profile with ep | vp <;> rw [qTry_ok, hp] at h
    · cases h
    rcases hc : c.credentials with ec | vc <;> rw [qTry_ok, hc] at h
    · cases h
    rcases hn : c.endpoint with en | vn <;> rw [qTry_ok, hn] at h
    · cases h
    rcases hw : env.s3awsNew with ew | vw <;> rw [qTry_ok, hw] at h
    · cases h
    · rw [qTry_ok] at h; cases h; rfl
  | GCP c =>
    rcases hb : c.bucket with eb | vb <;> rw [buildDatastore, hb] at h
    · cases h
    rcases hr : c.region with er | vr <;> rw [qTry_ok, hr] at h
    · cases h
    rcases ha : c.access_key with ea | va <;> rw [qTry_ok, ha] at h
    · cases h
    rcases hs : c.secret with es | vs <;> rw [qTry_ok, hs] at h
    · cases h
    rcases hn : c.endpoint with en | vn <;> rw [qTry_ok, hn] at h
    · cases h
    rcases hw : env.s3gcpNew with ew | vw <;> rw [qTry_ok, hw] at h
    · cases h
    · rw [qTry_ok] at h; cases h; rfl
  | LocalDisk c =>
    rcases hd : c.dir with ed | vd <;> rw [buildDatastore, hd] at h
    · cases h
    · rw [qTry_ok] at h; cases h; rfl

/-- Claim C7: `run` constructs at most one datastore backend, and when
construction succeeds it constructs exactly the one backend returned by the
configuration match, whose implementation (S3 for AWS and GCP, LocalDisk
for local disk) matches the configured variant. -/
theorem C7_one_matching_backend (env : Env) (config : Config) (sub : SubCommand) :
    (constructedBackends (run env config sub).1).length ≤ 1 ∧
    (∀ b, buildDatastore env config.datastore = .ok b →
      constructedBackends (run env config sub).1 = [b] ∧
      backendMatches config.datastore b = true) := by
  have htrace : ∀ b, buildDatastore env config.datastore = .ok b →
      constructedBackends (run env config sub).1 = [b] := by
    intro b hb
    cases hm : env.migrateResult with
    | error e =>
      simp [run, hb, hm, constructedBackends]
    | ok _ =>
      cases hi : env.initResult with
      | error e =>
        simp [run, hb, hm, hi, constructedBackends]
      | ok _ =>
        simp only [run, hb, hm, hi]
        rw [constructedBackends_append, constructedBackends_append,
          constructedBackends_append, constructedBackends_append,
          constructedBackends_spawnEvents, constructedBackends_setDumpNameEvents]
        rfl
  constructor
  · cases hb : buildDatastore env config.datastore with
    | error e => simp [run, hb, constructedBackends]
    | ok b => rw [htrace b hb]; exact Nat.le_refl 1
  · intro b hb
    exact ⟨htrace b hb, backendMatches_of_buildDatastore_ok env config.datastore b hb⟩

/-- Witness for C7: the local-disk configuration constructs exactly the
LocalDisk backend. -/
theorem C7_witness :
    buildDatastore okEnv cfgLocal.datastore = .ok (Backend.LocalDisk "store-dir") ∧
    constructedBackends
      (run okEnv cfgLocal (SubCommand.Dump DumpCommand.List)).1 =
      [Backend.LocalDisk "store-dir"] ∧
    backendMatches cfgLocal.datastore (Backend.LocalDisk "store-dir") = true :=
  ⟨rfl,
   ((C7_one_matching_backend okEnv cfgLocal (SubCommand.Dump DumpCommand.List)).2
     (Backend.LocalDisk "store-dir") rfl).1,
   ((C7_one_matching_backend okEnv cfgLocal (SubCommand.Dump DumpCommand.List)).2
     (Backend.LocalDisk "store-dir") rfl).2⟩

end Replibyte
